import Mathlib

/-
  Shallow embedding of the Cart → Order engine of the ReadAPI bookstore
  backend (src/routes/cart.routes.js, src/routes/order.routes.js,
  src/models/cart.model.js, src/models/order.model.js, and the book
  update route).  JS numeric values are modelled as exact integers
  (every numeric constant and comparison these routes perform is
  integral, and the spec asks for exact arithmetic on the totals); Mongo
  ObjectIds are modelled as naturals.  Each Express handler becomes a
  pure function
  from a database state and its request inputs to an HTTP-level result
  together with the post-state.
-/

namespace ReadAPI

/-- A catalog book (book.model.js): the fields the cart/order engine reads. -/
structure Book where
  id : Nat
  title : String
  author : String
  description : String
  price : Int
deriving Repr, DecidableEq

/-- A cart line item (cartItemSchema in cart.model.js): subdocument id,
book reference, quantity (Number, min 1) and snapshotted price. -/
structure CartItem where
  itemId : Nat
  book : Nat
  quantity : Int
  price : Int
deriving Repr, DecidableEq

/-- A cart (cartSchema in cart.model.js): owning user (unique), line
items, and the derived totalAmount. -/
structure Cart where
  user : Nat
  items : List CartItem
  totalAmount : Int
deriving Repr, DecidableEq

/-- An order line item (orderItemSchema in order.model.js). -/
structure OrderItem where
  book : Nat
  quantity : Int
  price : Int
deriving Repr, DecidableEq

/-- A shipping address (addressSchema in order.model.js); every field is
a required string. -/
structure Address where
  street : String
  city : String
  state : String
  zipCode : String
  country : String
deriving Repr, DecidableEq

/-- An order (orderSchema in order.model.js). -/
structure Order where
  id : Nat
  user : Nat
  items : List OrderItem
  totalAmount : Int
  shippingAddress : Address
  paymentMethod : String
  status : String
deriving Repr, DecidableEq

/-- The persistent store: books, carts (at most one per user is the
schema intent) and orders. -/
structure Db where
  books : List Book
  carts : List Cart
  orders : List Order
deriving Repr, DecidableEq

/-- Book.findById. -/
def findBookById (db : Db) (bookId : Nat) : Option Book :=
  db.books.find? (fun b => b.id == bookId)

/-- Cart.findOne on the user field. -/
def findCartByUser (db : Db) (userId : Nat) : Option Cart :=
  db.carts.find? (fun c => c.user == userId)

/-- Order.findById. -/
def findOrderById (db : Db) (orderId : Nat) : Option Order :=
  db.orders.find? (fun o => o.id == orderId)

/-- The reduce over items computing price times quantity, shared by the
cart route handlers and the pre-save hook of cart.model.js. -/
def cartTotal (items : List CartItem) : Int :=
  items.foldl (fun total item => total + item.price * item.quantity) 0

/-- Mongoose validation of the cart item schema: quantity has min 1. -/
def cartItemsValid (items : List CartItem) : Bool :=
  items.all (fun item => 1 ≤ item.quantity)

/-- cart.save(): schema validation runs first (failing save), then the
pre-save hook of cart.model.js recomputes totalAmount. -/
def cartSave (c : Cart) : Option Cart :=
  if cartItemsValid c.items then
    some { c with totalAmount := cartTotal c.items }
  else
    none

/-- Persisting a saved cart: the user field is unique, so the write
replaces the document with the same user, or inserts a fresh one. -/
def upsertCart (db : Db) (c : Cart) : Db :=
  if db.carts.any (fun c0 => c0.user == c.user) then
    { db with carts := db.carts.map (fun c0 => if c0.user == c.user then c else c0) }
  else
    { db with carts := db.carts ++ [c] }

/-- Outcome of a route handler: an HTTP success with a JSON body, or an
HTTP failure with a status code and message. -/
inductive HResult (α : Type) where
  | success (code : Nat) (value : α)
  | failure (code : Nat) (message : String)
deriving Repr, DecidableEq

/-- In-place update of the element at one index, mirroring the JS
array-index assignment the handlers perform after findIndex. -/
def listModify (f : α → α) : Nat → List α → List α
  | _, [] => []
  | 0, x :: xs => f x :: xs
  | n + 1, x :: xs => x :: listModify f n xs

/-- POST /cart/add (cart.routes.js, lines 65-118).  Looks up the book,
gets or lazily creates the cart, merges into an existing line item for
the same book or appends a snapshot item, recomputes the total and
saves.  `freshItemId` stands for the ObjectId minted for a new
subdocument. -/
def addToCart (db : Db) (userId bookId : Nat) (quantity : Int) (freshItemId : Nat) :
    HResult Cart × Db :=
  match findBookById db bookId with
  | none => (.failure 404 "Book not found", db)
  | some book =>
    let cart :=
      match findCartByUser db userId with
      | some c => c
      | none => { user := userId, items := [], totalAmount := 0 }
    let items :=
      match cart.items.findIdx? (fun item => item.book == bookId) with
      | some existingItemIndex =>
        listModify (fun item => { item with quantity := item.quantity + quantity })
          existingItemIndex cart.items
      | none =>
        cart.items ++ [{ itemId := freshItemId, book := bookId,
                         quantity := quantity, price := book.price }]
    let cart := { cart with items := items, totalAmount := cartTotal items }
    match cartSave cart with
    | none => (.failure 500 "Error adding to cart", db)
    | some saved => (.success 200 saved, upsertCart db saved)

/-- PUT /cart/update/:itemId (cart.routes.js, lines 149-193).  The JS
guard `if (!quantity || quantity < 1)` rejects a falsy (zero) or
sub-one quantity before any read. -/
def updateCartItem (db : Db) (userId itemId : Nat) (quantity : Int) :
    HResult Cart × Db :=
  if quantity == 0 || quantity < 1 then
    (.failure 400 "Quantity must be at least 1", db)
  else
    match findCartByUser db userId with
    | none => (.failure 404 "Cart not found", db)
    | some cart =>
      match cart.items.findIdx? (fun item => item.itemId == itemId) with
      | none => (.failure 404 "Item not found in cart", db)
      | some itemIndex =>
        let items := listModify (fun item => { item with quantity := quantity })
          itemIndex cart.items
        let cart := { cart with items := items, totalAmount := cartTotal items }
        match cartSave cart with
        | none => (.failure 500 "Error updating cart", db)
        | some saved => (.success 200 saved, upsertCart db saved)

/-- DELETE /cart/remove/:itemId (cart.routes.js, lines 213-245).
Filters the item list for non-matching subdocument ids, recomputes and
saves; a missing id is silently tolerated. -/
def removeFromCart (db : Db) (userId itemId : Nat) : HResult Cart × Db :=
  match findCartByUser db userId with
  | none => (.failure 404 "Cart not found", db)
  | some cart =>
    let items := cart.items.filter (fun item => !(item.itemId == itemId))
    let cart := { cart with items := items, totalAmount := cartTotal items }
    match cartSave cart with
    | none => (.failure 500 "Error removing item from cart", db)
    | some saved => (.success 200 saved, upsertCart db saved)

/-- DELETE /cart/clear (cart.routes.js, lines 259-278). -/
def clearCart (db : Db) (userId : Nat) : HResult Cart × Db :=
  match findCartByUser db userId with
  | none => (.failure 404 "Cart not found", db)
  | some cart =>
    let cart := { cart with items := [], totalAmount := 0 }
    match cartSave cart with
    | none => (.failure 500 "Error clearing cart", db)
    | some saved => (.success 200 saved, upsertCart db saved)

/-- The payment method enum of orderSchema. -/
def paymentMethods : List String := ["credit_card", "paypal", "stripe"]

/-- The status enum of orderSchema. -/
def orderStatuses : List String :=
  ["pending", "processing", "shipped", "delivered", "cancelled"]

/-- Mongoose validation of the required address strings. -/
def addressValid (a : Address) : Bool :=
  !(a.street == "") && !(a.city == "") && !(a.state == "") &&
    !(a.zipCode == "") && !(a.country == "")

/-- The status-independent part of order validation: item quantities
have min 1, the payment method is in its enum, the address validates. -/
def orderWellFormed (o : Order) : Bool :=
  o.items.all (fun item => 1 ≤ item.quantity) &&
    paymentMethods.contains o.paymentMethod &&
    addressValid o.shippingAddress

/-- order.save(): mongoose validation of orderSchema. -/
def orderSave (o : Order) : Option Order :=
  if orderWellFormed o && orderStatuses.contains o.status then some o else none

/-- The per-item copy the POST /orders handler intends: book reference,
quantity and price of a cart line item. -/
def cartItemToOrderItem (item : CartItem) : OrderItem :=
  { book := item.book, quantity := item.quantity, price := item.price }

/-- The populate of items.book performed by POST /orders followed by the
map building the order items (order.routes.js, lines 133-147).  A line
item whose book reference no longer resolves populates to null, and the
handler's item.book._id dereference then throws, caught by the route's
catch; the traversal therefore yields the order items only when every
referenced book still exists, and copies the populated document's _id
as the order item's book reference. -/
def resolveOrderItems (db : Db) : List CartItem → Option (List OrderItem)
  | [] => some []
  | item :: rest =>
    match findBookById db item.book, resolveOrderItems db rest with
    | some book, some tail =>
      some ({ book := book.id, quantity := item.quantity, price := item.price } :: tail)
    | _, _ => none

/-- POST /orders (order.routes.js, lines 128-169).  Loads the cart with
items.book populated, rejects an absent or empty cart, builds the order
items through the item.book._id dereference (a 400 when a referenced
book was deleted), creates the order with totalAmount copied from the
cart, saves it, then drains and saves the cart.  `freshOrderId` stands
for the minted ObjectId. -/
def createOrder (db : Db) (userId : Nat) (shippingAddress : Address)
    (paymentMethod : String) (freshOrderId : Nat) : HResult Order × Db :=
  match findCartByUser db userId with
  | none => (.failure 400 "Cart is empty", db)
  | some cart =>
    if cart.items.length == 0 then
      (.failure 400 "Cart is empty", db)
    else
      match resolveOrderItems db cart.items with
      | none => (.failure 400 "Error creating order", db)
      | some orderItems =>
        let order : Order :=
          { id := freshOrderId, user := userId, items := orderItems,
            totalAmount := cart.totalAmount, shippingAddress := shippingAddress,
            paymentMethod := paymentMethod, status := "pending" }
        match orderSave order with
        | none => (.failure 400 "Error creating order", db)
        | some createdOrder =>
          let db1 : Db := { db with orders := db.orders ++ [createdOrder] }
          let cart := { cart with items := [], totalAmount := 0 }
          match cartSave cart with
          | none => (.failure 400 "Error creating order", db1)
          | some savedCart => (.success 201 createdOrder, upsertCart db1 savedCart)

/-- The status values PUT /orders/:id/status accepts. -/
def assignableStatuses : List String :=
  ["pending", "processing", "shipped", "delivered"]

/-- PUT /orders/:id/status (order.routes.js, lines 203-224). -/
def updateOrderStatus (db : Db) (orderId : Nat) (newStatus : String) :
    HResult Order × Db :=
  if !(assignableStatuses.contains newStatus) then
    (.failure 400 "Invalid status", db)
  else
    match findOrderById db orderId with
    | none => (.failure 404 "Order not found", db)
    | some order =>
      let order := { order with status := newStatus }
      match orderSave order with
      | none => (.failure 400 "Error updating order status", db)
      | some updatedOrder =>
        (.success 200 updatedOrder,
         { db with orders :=
             db.orders.map (fun o => if o.id == orderId then updatedOrder else o) })

/-- GET /orders/:id (order.routes.js, lines 72-90): findOne on both the
order id and the requesting user. -/
def getOrderById (db : Db) (userId orderId : Nat) : HResult Order × Db :=
  match db.orders.find? (fun o => o.id == orderId && o.user == userId) with
  | none => (.failure 404 "Order not found", db)
  | some order => (.success 200 order, db)

/-- Mongoose validation of bookSchema: title, author and description
are required strings and price has min 0. -/
def bookValid (b : Book) : Bool :=
  !(b.title == "") && !(b.author == "") && !(b.description == "") && 0 ≤ b.price

/-- book.save(): schema validation of bookSchema. -/
def bookSave (b : Book) : Option Book :=
  if bookValid b then some b else none

/-- PUT /books/:id (book.routes.js, lines 145-176): validates the three
required text fields, then overwrites the book, with `price || 0`
collapsing a falsy price to zero, and saves it through the schema
validation (a 400 from the route's catch when the save throws). -/
def updateBook (db : Db) (bookId : Nat) (title author description : String)
    (price : Option Int) : HResult Book × Db :=
  if title == "" || author == "" || description == "" then
    (.failure 400 "Title, author, and description are required fields", db)
  else
    match findBookById db bookId with
    | none => (.failure 404 "Book not found", db)
    | some book =>
      let newPrice : Int :=
        match price with
        | none => 0
        | some p => if p == 0 then 0 else p
      let book :=
        { book with
          title := title
          author := author
          description := description
          price := newPrice }
      match bookSave book with
      | none => (.failure 400 "Error updating book", db)
      | some updatedBook =>
        (.success 200 updatedBook,
         { db with books := db.books.map (fun b => if b.id == bookId then updatedBook else b) })

/-! ### Basic lemmas about the store operations -/

theorem cartTotal_foldl (l : List CartItem) (acc : Int) :
    l.foldl (fun total item => total + item.price * item.quantity) acc =
      acc + (l.map (fun item => item.price * item.quantity)).sum := by
  induction l generalizing acc with
  | nil => simp
  | cons x xs ih => simp [List.foldl_cons, ih, add_assoc]

/-- The reduce in the handlers and the pre-save hook computes the exact
sum of price times quantity over the items. -/
theorem cartTotal_eq_sum (l : List CartItem) :
    cartTotal l = (l.map (fun item => item.price * item.quantity)).sum := by
  simpa using cartTotal_foldl l 0

theorem cartSave_eq_some {c saved : Cart} (h : cartSave c = some saved) :
    saved = { c with totalAmount := cartTotal c.items } := by
  unfold cartSave at h
  split at h
  · exact (Option.some.inj h).symm
  · cases h

theorem cartSave_of_valid {c : Cart} (h : cartItemsValid c.items = true) :
    cartSave c = some { c with totalAmount := cartTotal c.items } := by
  simp [cartSave, h]

theorem upsertCart_orders (db : Db) (c : Cart) :
    (upsertCart db c).orders = db.orders := by
  unfold upsertCart
  split <;> rfl

theorem upsertCart_books (db : Db) (c : Cart) :
    (upsertCart db c).books = db.books := by
  unfold upsertCart
  split <;> rfl

theorem find?_map_replace {α : Type} (p : α → Bool) (u : α) (l : List α)
    (hu : p u = true) :
    (l.map (fun x => if p x then u else x)).find? p =
      if l.any p then some u else none := by
  induction l with
  | nil => rfl
  | cons x xs ih =>
    cases hx : p x with
    | true => simp [hx, List.find?_cons_of_pos _ hu]
    | false =>
      rw [List.map_cons, if_neg (by simp [hx]), List.find?_cons_of_neg _ (by simp [hx]),
        ih, List.any_cons, hx, Bool.false_or]

theorem find?_append_single {α : Type} (p : α → Bool) (l : List α) (a : α)
    (h : l.find? p = none) (ha : p a = true) :
    (l ++ [a]).find? p = some a := by
  induction l with
  | nil =>
    rw [List.nil_append]
    exact List.find?_cons_of_pos _ ha
  | cons x xs ih =>
    have hall := List.find?_eq_none.1 h
    have hx : ¬ p x = true := hall x (List.mem_cons_self x xs)
    have hxs : xs.find? p = none :=
      List.find?_eq_none.2 fun y hy => hall y (List.mem_cons_of_mem x hy)
    rw [List.cons_append, List.find?_cons_of_neg _ hx]
    exact ih hxs

/-- A saved cart is the one read back for its user afterwards. -/
theorem findCartByUser_upsertCart (db : Db) (c : Cart) :
    findCartByUser (upsertCart db c) c.user = some c := by
  unfold findCartByUser upsertCart
  split
  next h =>
    rw [find?_map_replace _ _ _ (by simp), if_pos h]
  next h =>
    refine find?_append_single _ _ _ ?_ (by simp)
    refine List.find?_eq_none.2 fun x hx hpx => h ?_
    simp only [List.any_eq_true]
    exact ⟨x, hx, hpx⟩

theorem findCartByUser_user {db : Db} {u : Nat} {c : Cart}
    (h : findCartByUser db u = some c) : c.user = u := by
  simpa using List.find?_some h

theorem findOrderById_id {db : Db} {oid : Nat} {o : Order}
    (h : findOrderById db oid = some o) : o.id = oid := by
  simpa using List.find?_some h

/-! ### Lemmas about listModify -/

theorem listModify_length {α : Type} (f : α → α) (i : Nat) (l : List α) :
    (listModify f i l).length = l.length := by
  induction l generalizing i with
  | nil => cases i <;> rfl
  | cons x xs ih =>
    cases i with
    | zero => rfl
    | succ n => simp [listModify, ih]

theorem listModify_getElem?_self {α : Type} (f : α → α) (i : Nat) (l : List α) :
    (listModify f i l)[i]? = (l[i]?).map f := by
  induction l generalizing i with
  | nil => cases i <;> rfl
  | cons x xs ih =>
    cases i with
    | zero => simp [listModify]
    | succ n => simpa [listModify] using ih n

theorem listModify_getElem?_ne {α : Type} (f : α → α) (i j : Nat) (l : List α)
    (h : j ≠ i) : (listModify f i l)[j]? = l[j]? := by
  induction l generalizing i j with
  | nil => cases i <;> rfl
  | cons x xs ih =>
    cases i with
    | zero =>
      cases j with
      | zero => exact absurd rfl h
      | succ m => rfl
    | succ n =>
      cases j with
      | zero => simp [listModify]
      | succ m => simpa [listModify] using ih n m (fun hc => h (by rw [hc]))

theorem listModify_all {α : Type} (p : α → Bool) (f : α → α) (i : Nat) (l : List α)
    (hl : l.all p = true) (hf : ∀ x, l[i]? = some x → p (f x) = true) :
    (listModify f i l).all p = true := by
  induction l generalizing i with
  | nil => cases i <;> simp [listModify]
  | cons x xs ih =>
    simp only [List.all_cons, Bool.and_eq_true] at hl
    cases i with
    | zero =>
      simp only [listModify, List.all_cons, Bool.and_eq_true]
      exact ⟨hf x (by simp), hl.2⟩
    | succ n =>
      simp only [listModify, List.all_cons, Bool.and_eq_true]
      exact ⟨hl.1, ih n hl.2 (fun y hy => hf y (by simpa using hy))⟩

/-! ### Success-shape inversion for the cart mutations -/

theorem addToCart_success_inv {db : Db} {userId bookId freshItemId code : Nat} {q : Int}
    {saved : Cart} {db' : Db}
    (h : addToCart db userId bookId q freshItemId = (.success code saved, db')) :
    code = 200 ∧ saved.user = userId ∧ saved.totalAmount = cartTotal saved.items ∧
      db' = upsertCart db saved := by
  unfold addToCart at h
  split at h
  · simp at h
  next book hBook =>
    simp only [] at h
    split at h
    · simp at h
    next s hs =>
      simp only [Prod.mk.injEq, HResult.success.injEq] at h
      obtain ⟨⟨hc, hsv⟩, hdb⟩ := h
      have hshape := cartSave_eq_some hs
      subst hsv hdb
      refine ⟨hc.symm, ?_, ?_, rfl⟩
      · rw [hshape]
        cases hC : findCartByUser db userId with
        | none => simp [hC]
        | some c => simpa [hC] using findCartByUser_user hC
      · rw [hshape]

theorem updateCartItem_success_inv {db : Db} {userId itemId code : Nat} {q : Int}
    {saved : Cart} {db' : Db}
    (h : updateCartItem db userId itemId q = (.success code saved, db')) :
    code = 200 ∧ saved.user = userId ∧ saved.totalAmount = cartTotal saved.items ∧
      db' = upsertCart db saved := by
  unfold updateCartItem at h
  split at h
  · simp at h
  split at h
  · simp at h
  next cart hC =>
    split at h
    · simp at h
    next i hIdx =>
      simp only [] at h
      split at h
      · simp at h
      next s hs =>
        simp only [Prod.mk.injEq, HResult.success.injEq] at h
        obtain ⟨⟨hc, hsv⟩, hdb⟩ := h
        have hshape := cartSave_eq_some hs
        subst hsv hdb
        refine ⟨hc.symm, ?_, ?_, rfl⟩
        · rw [hshape]
          simpa using findCartByUser_user hC
        · rw [hshape]

theorem removeFromCart_success_inv {db : Db} {userId itemId code : Nat}
    {saved : Cart} {db' : Db}
    (h : removeFromCart db userId itemId = (.success code saved, db')) :
    code = 200 ∧ saved.user = userId ∧ saved.totalAmount = cartTotal saved.items ∧
      db' = upsertCart db saved := by
  unfold removeFromCart at h
  split at h
  · simp at h
  next cart hC =>
    simp only [] at h
    split at h
    · simp at h
    next s hs =>
      simp only [Prod.mk.injEq, HResult.success.injEq] at h
      obtain ⟨⟨hc, hsv⟩, hdb⟩ := h
      have hshape := cartSave_eq_some hs
      subst hsv hdb
      refine ⟨hc.symm, ?_, ?_, rfl⟩
      · rw [hshape]
        simpa using findCartByUser_user hC
      · rw [hshape]

theorem clearCart_success_inv {db : Db} {userId code : Nat} {saved : Cart} {db' : Db}
    (h : clearCart db userId = (.success code saved, db')) :
    code = 200 ∧ saved.user = userId ∧ saved.totalAmount = cartTotal saved.items ∧
      db' = upsertCart db saved := by
  unfold clearCart at h
  split at h
  · simp at h
  next cart hC =>
    simp only [] at h
    split at h
    · simp at h
    next s hs =>
      simp only [Prod.mk.injEq, HResult.success.injEq] at h
      obtain ⟨⟨hc, hsv⟩, hdb⟩ := h
      have hshape := cartSave_eq_some hs
      subst hsv hdb
      refine ⟨hc.symm, ?_, ?_, rfl⟩
      · rw [hshape]
        simpa using findCartByUser_user hC
      · rw [hshape]

/-! ### Frame facts: no modelled operation outside checkout and the
status update ever writes the orders collection -/

theorem addToCart_frame_orders (db : Db) (userId bookId freshItemId : Nat) (q : Int) :
    (addToCart db userId bookId q freshItemId).2.orders = db.orders := by
  unfold addToCart
  split
  · rfl
  · simp only []
    split
    · rfl
    · apply upsertCart_orders

theorem updateCartItem_frame_orders (db : Db) (userId itemId : Nat) (q : Int) :
    (updateCartItem db userId itemId q).2.orders = db.orders := by
  unfold updateCartItem
  split
  · rfl
  split
  · rfl
  · split
    · rfl
    · simp only []
      split
      · rfl
      · apply upsertCart_orders

theorem removeFromCart_frame_orders (db : Db) (userId itemId : Nat) :
    (removeFromCart db userId itemId).2.orders = db.orders := by
  unfold removeFromCart
  split
  · rfl
  · simp only []
    split
    · rfl
    · apply upsertCart_orders

theorem clearCart_frame_orders (db : Db) (userId : Nat) :
    (clearCart db userId).2.orders = db.orders := by
  unfold clearCart
  split
  · rfl
  · simp only []
    split
    · rfl
    · apply upsertCart_orders

theorem updateBook_frame_orders (db : Db) (bookId : Nat) (title author description : String)
    (price : Option Int) :
    (updateBook db bookId title author description price).2.orders = db.orders := by
  unfold updateBook
  split
  · rfl
  · split
    · rfl
    · simp only []
      split
      · rfl
      · rfl

/-! ### Forward evaluation lemmas for the handlers -/

theorem cartSave_recompute (c : Cart) (items1 : List CartItem)
    (h : cartItemsValid items1 = true) :
    cartSave { c with items := items1, totalAmount := cartTotal items1 } =
      some { c with items := items1, totalAmount := cartTotal items1 } := by
  have h2 := cartSave_of_valid (c := { c with items := items1, totalAmount := cartTotal items1 }) h
  exact h2

theorem addToCart_merge_spec (db : Db) (userId bookId freshItemId : Nat) (d : Int)
    (book : Book) (cart : Cart) (i : Nat) (itm : CartItem)
    (hBook : findBookById db bookId = some book)
    (hCart : findCartByUser db userId = some cart)
    (hIdx : cart.items.findIdx? (fun item => item.book == bookId) = some i)
    (hItm : cart.items[i]? = some itm)
    (hValid : cartItemsValid cart.items = true)
    (hQ : 1 ≤ itm.quantity + d) :
    ∃ saved : Cart,
      addToCart db userId bookId d freshItemId =
        (HResult.success 200 saved, upsertCart db saved) ∧
      saved.user = cart.user ∧
      saved.items.length = cart.items.length ∧
      saved.items[i]? = some { itm with quantity := itm.quantity + d } ∧
      (∀ j, j ≠ i → saved.items[j]? = cart.items[j]?) ∧
      saved.totalAmount = cartTotal saved.items := by
  have hValid2 : cartItemsValid
      (listModify (fun item => { item with quantity := item.quantity + d }) i cart.items) = true := by
    unfold cartItemsValid at hValid ⊢
    refine listModify_all _ _ _ _ hValid ?_
    intro x hx
    rw [hItm] at hx
    obtain rfl := Option.some.inj hx
    simpa using hQ
  refine ⟨{ cart with
      items := listModify (fun item => { item with quantity := item.quantity + d }) i cart.items
      totalAmount := cartTotal
        (listModify (fun item => { item with quantity := item.quantity + d }) i cart.items) },
    ?_, rfl, ?_, ?_, ?_, rfl⟩
  · simp only [addToCart, hBook, hCart, hIdx]
    rw [cartSave_recompute cart _ hValid2]
  · simpa using listModify_length _ i cart.items
  · simp only [listModify_getElem?_self, hItm, Option.map_some']
  · intro j hj
    simpa using listModify_getElem?_ne _ i j cart.items hj

theorem addToCart_append_spec (db : Db) (userId bookId freshItemId : Nat) (d : Int)
    (book : Book) (cart : Cart)
    (hBook : findBookById db bookId = some book)
    (hCart : findCartByUser db userId = some cart)
    (hIdx : cart.items.findIdx? (fun item => item.book == bookId) = none)
    (hValid : cartItemsValid cart.items = true)
    (hQ : 1 ≤ d) :
    ∃ saved : Cart,
      addToCart db userId bookId d freshItemId =
        (HResult.success 200 saved, upsertCart db saved) ∧
      saved.user = cart.user ∧
      saved.items = cart.items ++
        [{ itemId := freshItemId, book := bookId, quantity := d, price := book.price }] ∧
      saved.totalAmount = cartTotal saved.items := by
  have hValid2 : cartItemsValid (cart.items ++
      [{ itemId := freshItemId, book := bookId, quantity := d, price := book.price }]) = true := by
    unfold cartItemsValid at hValid ⊢
    simp [List.all_append, hValid, hQ]
  refine ⟨{ cart with
      items := cart.items ++
        [{ itemId := freshItemId, book := bookId, quantity := d, price := book.price }]
      totalAmount := cartTotal (cart.items ++
        [{ itemId := freshItemId, book := bookId, quantity := d, price := book.price }]) },
    ?_, rfl, rfl, rfl⟩
  simp only [addToCart, hBook, hCart, hIdx]
  rw [cartSave_recompute cart _ hValid2]

theorem updateCartItem_success_spec (db : Db) (userId itemId : Nat) (q : Int)
    (cart : Cart) (i : Nat) (itm : CartItem)
    (hq : 1 ≤ q)
    (hCart : findCartByUser db userId = some cart)
    (hIdx : cart.items.findIdx? (fun item => item.itemId == itemId) = some i)
    (hItm : cart.items[i]? = some itm)
    (hValid : cartItemsValid cart.items = true) :
    ∃ saved : Cart,
      updateCartItem db userId itemId q =
        (HResult.success 200 saved, upsertCart db saved) ∧
      saved.user = cart.user ∧
      saved.items.length = cart.items.length ∧
      saved.items[i]? = some { itm with quantity := q } ∧
      (∀ j, j ≠ i → saved.items[j]? = cart.items[j]?) ∧
      saved.totalAmount = cartTotal saved.items := by
  have hcond : (q == 0 || q < 1) = false := by
    have h0 : q ≠ 0 := ne_of_gt (lt_of_lt_of_le one_pos hq)
    have h1 : ¬ q < 1 := not_lt.2 hq
    simp [h0, h1]
  have hValid2 : cartItemsValid
      (listModify (fun item => { item with quantity := q }) i cart.items) = true := by
    unfold cartItemsValid at hValid ⊢
    refine listModify_all _ _ _ _ hValid ?_
    intro x hx
    simpa using hq
  refine ⟨{ cart with
      items := listModify (fun item => { item with quantity := q }) i cart.items
      totalAmount := cartTotal (listModify (fun item => { item with quantity := q }) i cart.items) },
    ?_, rfl, ?_, ?_, ?_, rfl⟩
  · simp only [updateCartItem, hcond, Bool.false_eq_true, if_false, hCart, hIdx]
    rw [cartSave_recompute cart _ hValid2]
  · simpa using listModify_length _ i cart.items
  · simp only [listModify_getElem?_self, hItm, Option.map_some']
  · intro j hj
    simpa using listModify_getElem?_ne _ i j cart.items hj

theorem removeFromCart_success_spec (db : Db) (userId itemId : Nat) (cart : Cart)
    (hCart : findCartByUser db userId = some cart)
    (hValid : cartItemsValid cart.items = true) :
    ∃ saved : Cart,
      removeFromCart db userId itemId = (HResult.success 200 saved, upsertCart db saved) ∧
      saved.user = cart.user ∧
      saved.items = cart.items.filter (fun item => !(item.itemId == itemId)) ∧
      saved.totalAmount = cartTotal saved.items := by
  have hValid2 : cartItemsValid
      (cart.items.filter (fun item => !(item.itemId == itemId))) = true := by
    unfold cartItemsValid at hValid ⊢
    rw [List.all_eq_true] at hValid ⊢
    intro x hx
    exact hValid x (List.mem_of_mem_filter hx)
  refine ⟨{ cart with
      items := cart.items.filter (fun item => !(item.itemId == itemId))
      totalAmount := cartTotal (cart.items.filter (fun item => !(item.itemId == itemId))) },
    ?_, rfl, rfl, rfl⟩
  simp only [removeFromCart, hCart]
  rw [cartSave_recompute cart _ hValid2]

theorem clearCart_success_spec (db : Db) (userId : Nat) (cart : Cart)
    (hCart : findCartByUser db userId = some cart) :
    clearCart db userId =
      (HResult.success 200 { cart with items := [], totalAmount := 0 },
       upsertCart db { cart with items := [], totalAmount := 0 }) := by
  have hsave : cartSave { cart with items := [], totalAmount := 0 } =
      some { cart with items := [], totalAmount := 0 } := by
    simp [cartSave, cartItemsValid, cartTotal]
  simp only [clearCart, hCart]
  rw [hsave]

/-! ### Forward evaluation lemmas for the order handlers -/

/-- The order document the POST /orders handler constructs before
saving (order.routes.js, lines 150-156). -/
def builtOrder (userId freshOrderId : Nat) (addr : Address) (pm : String) (cart : Cart) :
    Order :=
  { id := freshOrderId, user := userId, items := cart.items.map cartItemToOrderItem,
    totalAmount := cart.totalAmount, shippingAddress := addr, paymentMethod := pm,
    status := "pending" }

theorem createOrder_empty_none (db : Db) (userId freshOrderId : Nat) (addr : Address)
    (pm : String) (hCart : findCartByUser db userId = none) :
    createOrder db userId addr pm freshOrderId = (.failure 400 "Cart is empty", db) := by
  simp [createOrder, hCart]

theorem createOrder_empty_some (db : Db) (userId freshOrderId : Nat) (addr : Address)
    (pm : String) (cart : Cart) (hCart : findCartByUser db userId = some cart)
    (hE : cart.items = []) :
    createOrder db userId addr pm freshOrderId = (.failure 400 "Cart is empty", db) := by
  simp [createOrder, hCart, hE]

/-- When every referenced book still exists, the populate-and-map
traversal of POST /orders succeeds and copies each line item's book
reference, quantity and price. -/
theorem resolveOrderItems_of_found (db : Db) (items : List CartItem)
    (h : ∀ item ∈ items, (findBookById db item.book).isSome = true) :
    resolveOrderItems db items = some (items.map cartItemToOrderItem) := by
  induction items with
  | nil => rfl
  | cons x xs ih =>
    obtain ⟨b, hb⟩ := Option.isSome_iff_exists.mp (h x (List.mem_cons_self x xs))
    have hbid : b.id = x.book := by simpa using List.find?_some hb
    have htail := ih (fun y hy => h y (List.mem_cons_of_mem x hy))
    simp only [resolveOrderItems, hb, htail, List.map_cons]
    simp [cartItemToOrderItem, hbid]

theorem createOrder_success_spec (db : Db) (userId freshOrderId : Nat) (addr : Address)
    (pm : String) (cart : Cart)
    (hCart : findCartByUser db userId = some cart)
    (hNE : cart.items ≠ [])
    (hRes : ∀ item ∈ cart.items, (findBookById db item.book).isSome = true)
    (hValid : cartItemsValid cart.items = true)
    (hPm : paymentMethods.contains pm = true)
    (hAddr : addressValid addr = true) :
    createOrder db userId addr pm freshOrderId =
      (HResult.success 201 (builtOrder userId freshOrderId addr pm cart),
       upsertCart { db with orders := db.orders ++ [builtOrder userId freshOrderId addr pm cart] }
         { cart with items := [], totalAmount := 0 }) := by
  have hLen : (cart.items.length == 0) = false := by
    simp [List.length_eq_zero, hNE]
  have hWF : orderWellFormed (builtOrder userId freshOrderId addr pm cart) = true := by
    unfold orderWellFormed builtOrder
    simp only [List.all_map, hPm, hAddr, Bool.and_true]
    simpa [cartItemsValid, Function.comp, cartItemToOrderItem] using hValid
  have hPend : orderStatuses.contains "pending" = true := by decide
  have hst : (builtOrder userId freshOrderId addr pm cart).status = "pending" := rfl
  have hsaveO : orderSave (builtOrder userId freshOrderId addr pm cart) =
      some (builtOrder userId freshOrderId addr pm cart) := by
    unfold orderSave
    rw [hst, hWF, hPend]
    rfl
  have hsaveC : cartSave { cart with items := [], totalAmount := 0 } =
      some { cart with items := [], totalAmount := 0 } := by
    simp [cartSave, cartItemsValid, cartTotal]
  simp only [createOrder, hCart, hLen, Bool.false_eq_true, if_false]
  rw [resolveOrderItems_of_found db cart.items hRes]
  simp only []
  unfold builtOrder at hsaveO ⊢
  rw [hsaveO]
  simp only []
  rw [hsaveC]

/-- Every status the update route accepts is a legal stored status. -/
theorem assignable_mem_orderStatuses {s : String}
    (h : assignableStatuses.contains s = true) : orderStatuses.contains s = true := by
  have h2 : s ∈ assignableStatuses := by simpa using h
  have h3 : s ∈ orderStatuses := by
    simp only [assignableStatuses, List.mem_cons, List.not_mem_nil, or_false] at h2
    simp only [orderStatuses, List.mem_cons, List.not_mem_nil, or_false]
    tauto
  simpa using h3

theorem updateOrderStatus_invalid (db : Db) (orderId : Nat) (newStatus : String)
    (h : assignableStatuses.contains newStatus = false) :
    updateOrderStatus db orderId newStatus = (.failure 400 "Invalid status", db) := by
  unfold updateOrderStatus
  rw [h]
  rfl

theorem updateOrderStatus_missing (db : Db) (orderId : Nat) (newStatus : String)
    (h : assignableStatuses.contains newStatus = true)
    (hO : findOrderById db orderId = none) :
    updateOrderStatus db orderId newStatus = (.failure 404 "Order not found", db) := by
  unfold updateOrderStatus
  rw [h, hO]
  rfl

theorem updateOrderStatus_success_spec (db : Db) (orderId : Nat) (newStatus : String)
    (o : Order)
    (h : assignableStatuses.contains newStatus = true)
    (hO : findOrderById db orderId = some o)
    (hWF : orderWellFormed o = true) :
    updateOrderStatus db orderId newStatus =
      (HResult.success 200 { o with status := newStatus },
       { db with orders :=
           db.orders.map (fun o0 => if o0.id == orderId then { o with status := newStatus } else o0) }) := by
  have hWF2 : orderWellFormed { o with status := newStatus } = true := by
    simpa [orderWellFormed] using hWF
  have hsave : orderSave { o with status := newStatus } =
      some { o with status := newStatus } := by
    unfold orderSave
    have hst : ({ o with status := newStatus } : Order).status = newStatus := rfl
    rw [hst, hWF2, assignable_mem_orderStatuses h]
    rfl
  unfold updateOrderStatus
  rw [h, hO]
  simp only []
  rw [hsave]
  simp

/-- After a successful status update, reading the order back by id
yields the updated document. -/
theorem findOrderById_after_update (db : Db) (orderId : Nat) (o u : Order)
    (hO : findOrderById db orderId = some o) (hu : u.id = orderId) :
    findOrderById
      { db with orders :=
          db.orders.map (fun o0 => if o0.id == orderId then u else o0) } orderId = some u := by
  unfold findOrderById at hO ⊢
  have hAny : db.orders.any (fun o0 => o0.id == orderId) = true := by
    rw [List.any_eq_true]
    have hp := List.find?_some hO
    exact ⟨o, List.mem_of_find?_eq_some hO, hp⟩
  have := find?_map_replace (fun o0 => o0.id == orderId) u db.orders (by simp [hu])
  simpa [hAny] using this

/-! ### Concrete stores used to witness the claims -/

def exAddr : Address :=
  { street := "s", city := "c", state := "st", zipCode := "z", country := "USA" }

def exBook4 : Book :=
  { id := 10, title := "t", author := "a", description := "x", price := 9 }

/-- A line item snapshotted at price 7, while the catalog book now costs 9. -/
def exItem4 : CartItem := { itemId := 5, book := 10, quantity := 2, price := 7 }

def exCart4 : Cart := { user := 1, items := [exItem4], totalAmount := 14 }

def exDb4 : Db := { books := [exBook4], carts := [exCart4], orders := [] }

/-- The spec section 8 checkout example: price 10 times 2 plus 5 times 1. -/
def exCart2 : Cart :=
  { user := 1,
    items := [{ itemId := 5, book := 10, quantity := 2, price := 10 },
              { itemId := 6, book := 11, quantity := 1, price := 5 }],
    totalAmount := 25 }

def exDb2 : Db :=
  { books := [{ id := 10, title := "b10", author := "a", description := "d", price := 10 },
              { id := 11, title := "b11", author := "a", description := "d", price := 5 }],
    carts := [exCart2], orders := [] }

def exDbEmpty : Db := { books := [], carts := [], orders := [] }

/-- A schema-valid cart whose single line item references book 10, in a
store whose catalog no longer contains that book. -/
def exCartDangling : Cart :=
  { user := 1, items := [{ itemId := 5, book := 10, quantity := 2, price := 10 }],
    totalAmount := 20 }

def exDbDangling : Db := { books := [], carts := [exCartDangling], orders := [] }

def exOrder6 : Order :=
  { id := 7, user := 1, items := [{ book := 10, quantity := 1, price := 7 }],
    totalAmount := 7, shippingAddress := exAddr, paymentMethod := "paypal",
    status := "pending" }

def exDb6 : Db := { books := [], carts := [], orders := [exOrder6] }

/-- An order owned by user 2, later looked up by user 1. -/
def exOrder10 : Order :=
  { id := 8, user := 2, items := [{ book := 10, quantity := 1, price := 5 }],
    totalAmount := 5, shippingAddress := exAddr, paymentMethod := "stripe",
    status := "pending" }

def exDb10 : Db := { books := [], carts := [], orders := [exOrder10] }

/-! ### The claims -/

/-- C1: for every cart, after any single mutating operation (add item,
update item quantity, remove item, clear cart) completes successfully,
the persisted cart's totalAmount equals the exact sum over its items of
unit price times quantity. -/
theorem claim_C1_cart_total_invariant (db : Db) (userId bookId itemId freshItemId : Nat)
    (qAdd qUpd : Int) :
    (∀ code saved db', addToCart db userId bookId qAdd freshItemId = (.success code saved, db') →
      findCartByUser db' userId = some saved ∧
      saved.totalAmount = (saved.items.map (fun item => item.price * item.quantity)).sum) ∧
    (∀ code saved db', updateCartItem db userId itemId qUpd = (.success code saved, db') →
      findCartByUser db' userId = some saved ∧
      saved.totalAmount = (saved.items.map (fun item => item.price * item.quantity)).sum) ∧
    (∀ code saved db', removeFromCart db userId itemId = (.success code saved, db') →
      findCartByUser db' userId = some saved ∧
      saved.totalAmount = (saved.items.map (fun item => item.price * item.quantity)).sum) ∧
    (∀ code saved db', clearCart db userId = (.success code saved, db') →
      findCartByUser db' userId = some saved ∧
      saved.totalAmount = (saved.items.map (fun item => item.price * item.quantity)).sum) := by
  refine ⟨?_, ?_, ?_, ?_⟩ <;> intro code saved db' h
  · obtain ⟨-, hu, ht, rfl⟩ := addToCart_success_inv h
    refine ⟨?_, by rw [ht, cartTotal_eq_sum]⟩
    rw [← hu]
    exact findCartByUser_upsertCart db saved
  · obtain ⟨-, hu, ht, rfl⟩ := updateCartItem_success_inv h
    refine ⟨?_, by rw [ht, cartTotal_eq_sum]⟩
    rw [← hu]
    exact findCartByUser_upsertCart db saved
  · obtain ⟨-, hu, ht, rfl⟩ := removeFromCart_success_inv h
    refine ⟨?_, by rw [ht, cartTotal_eq_sum]⟩
    rw [← hu]
    exact findCartByUser_upsertCart db saved
  · obtain ⟨-, hu, ht, rfl⟩ := clearCart_success_inv h
    refine ⟨?_, by rw [ht, cartTotal_eq_sum]⟩
    rw [← hu]
    exact findCartByUser_upsertCart db saved

/-- Witness for C1: clearing the concrete cart persists a cart whose
total is the sum over its (empty) items. -/
theorem claim_C1_cart_total_invariant_witness :
    findCartByUser (clearCart exDb4 1).2 1 = some { user := 1, items := [], totalAmount := 0 } ∧
    ({ user := 1, items := [], totalAmount := 0 } : Cart).totalAmount =
      (({ user := 1, items := [], totalAmount := 0 } : Cart).items.map
        (fun item => item.price * item.quantity)).sum :=
  (claim_C1_cart_total_invariant exDb4 1 10 5 99 2 3).2.2.2 200
    { user := 1, items := [], totalAmount := 0 } (clearCart exDb4 1).2 (by decide)

/-- C2, amended: placing an order from a non-empty cart all of whose
line items reference books still present in the catalog creates exactly
one new order whose item list copies the cart's items element-wise
(book, quantity, price), whose totalAmount is copied verbatim from the
cart's totalAmount, and afterwards the same cart is persisted with an
empty item list and totalAmount zero.  The amendment is forced by the
populate step: a line item referencing a deleted book makes the
handler's item.book._id dereference throw, returning 400 with no order
created (see the counterexample). -/
theorem claim_C2_place_order (db : Db) (userId freshOrderId : Nat) (addr : Address)
    (pm : String) (cart : Cart)
    (hCart : findCartByUser db userId = some cart)
    (hNE : cart.items ≠ [])
    (hRes : ∀ item ∈ cart.items, (findBookById db item.book).isSome = true)
    (hValid : cartItemsValid cart.items = true)
    (hPm : paymentMethods.contains pm = true)
    (hAddr : addressValid addr = true) :
    ∃ o : Order,
      (createOrder db userId addr pm freshOrderId).1 = HResult.success 201 o ∧
      o.items = cart.items.map cartItemToOrderItem ∧
      o.totalAmount = cart.totalAmount ∧
      o.user = userId ∧
      (createOrder db userId addr pm freshOrderId).2.orders = db.orders ++ [o] ∧
      (∃ c2 : Cart,
        findCartByUser (createOrder db userId addr pm freshOrderId).2 userId = some c2 ∧
        c2.items = [] ∧ c2.totalAmount = 0) := by
  rw [createOrder_success_spec db userId freshOrderId addr pm cart hCart hNE hRes hValid hPm hAddr]
  refine ⟨builtOrder userId freshOrderId addr pm cart, rfl, rfl, rfl, rfl, ?_, ?_⟩
  · exact upsertCart_orders _ _
  · refine ⟨{ cart with items := [], totalAmount := 0 }, ?_, rfl, rfl⟩
    have hu : cart.user = userId := findCartByUser_user hCart
    have h1 := findCartByUser_upsertCart
      { db with orders := db.orders ++ [builtOrder userId freshOrderId addr pm cart] }
      { cart with items := [], totalAmount := 0 }
    simpa [hu] using h1

/-- Witness for C2: the spec's checkout example, a cart of price 10
times 2 plus price 5 times 1, yields an order totalling 25 with two
items and leaves the cart drained. -/
theorem claim_C2_place_order_witness :
    ∃ o : Order,
      (createOrder exDb2 1 exAddr "paypal" 50).1 = HResult.success 201 o ∧
      o.items = exCart2.items.map cartItemToOrderItem ∧
      o.totalAmount = exCart2.totalAmount ∧
      o.user = 1 ∧
      (createOrder exDb2 1 exAddr "paypal" 50).2.orders = exDb2.orders ++ [o] ∧
      (∃ c2 : Cart,
        findCartByUser (createOrder exDb2 1 exAddr "paypal" 50).2 1 = some c2 ∧
        c2.items = [] ∧ c2.totalAmount = 0) :=
  claim_C2_place_order exDb2 1 50 exAddr "paypal" exCart2
    (by decide) (by decide) (by decide) (by decide) (by decide) (by decide)

/-- Counterexample to C2 as frozen: a non-empty, schema-valid cart with
valid checkout inputs whose line item references a deleted book; the
populate yields null, the item.book._id dereference throws, and
checkout returns 400 with no order created and the cart not drained. -/
theorem claim_C2_place_order_counterexample :
    findCartByUser exDbDangling 1 = some exCartDangling ∧
    exCartDangling.items ≠ [] ∧
    cartItemsValid exCartDangling.items = true ∧
    paymentMethods.contains "paypal" = true ∧
    addressValid exAddr = true ∧
    createOrder exDbDangling 1 exAddr "paypal" 50 =
      (HResult.failure 400 "Error creating order", exDbDangling) := by
  decide

/-- C3: placing an order fails with HTTP 400 and message Cart is empty
whenever the user has no cart or the cart has zero items, and in that
case no order is created and the store is left unchanged. -/
theorem claim_C3_empty_cart_rejected (db : Db) (userId freshOrderId : Nat)
    (addr : Address) (pm : String) :
    (findCartByUser db userId = none →
      createOrder db userId addr pm freshOrderId = (HResult.failure 400 "Cart is empty", db)) ∧
    (∀ cart, findCartByUser db userId = some cart → cart.items = [] →
      createOrder db userId addr pm freshOrderId = (HResult.failure 400 "Cart is empty", db)) :=
  ⟨fun h => createOrder_empty_none db userId freshOrderId addr pm h,
   fun cart h he => createOrder_empty_some db userId freshOrderId addr pm cart h he⟩

/-- Witness for C3: checkout against a store with no cart for the user
returns 400 and leaves the store untouched. -/
theorem claim_C3_empty_cart_rejected_witness :
    createOrder exDbEmpty 1 exAddr "paypal" 50 = (HResult.failure 400 "Cart is empty", exDbEmpty) :=
  (claim_C3_empty_cart_rejected exDbEmpty 1 50 exAddr "paypal").1 (by decide)

/-- C5: orders already in the store are invariant under the other
exposed mutations: updating a book (including its price) and every cart
mutation leave the orders collection, hence every order's items and
totalAmount, unchanged. -/
theorem claim_C5_orders_frame (db : Db) (bookIdU userId bookIdA itemIdU itemIdR freshItemId : Nat)
    (title author description : String) (price : Option Int) (qAdd qUpd : Int) :
    (updateBook db bookIdU title author description price).2.orders = db.orders ∧
    (addToCart db userId bookIdA qAdd freshItemId).2.orders = db.orders ∧
    (updateCartItem db userId itemIdU qUpd).2.orders = db.orders ∧
    (removeFromCart db userId itemIdR).2.orders = db.orders ∧
    (clearCart db userId).2.orders = db.orders :=
  ⟨updateBook_frame_orders db bookIdU title author description price,
   addToCart_frame_orders db userId bookIdA freshItemId qAdd,
   updateCartItem_frame_orders db userId itemIdU qUpd,
   removeFromCart_frame_orders db userId itemIdR,
   clearCart_frame_orders db userId⟩

/-- C4: adding a book already in the cart increments that line item's
quantity by the requested amount and leaves its snapshotted unit price
untouched (it is not refreshed to the book's current catalog price),
without appending a new item; adding a book not yet in the cart appends
a new line item priced at the book's current catalog price. -/
theorem claim_C4_merge_and_snapshot (db : Db) (userId bookId freshItemId : Nat) (d : Int) :
    (∀ book cart i itm,
      findBookById db bookId = some book →
      findCartByUser db userId = some cart →
      cart.items.findIdx? (fun item => item.book == bookId) = some i →
      cart.items[i]? = some itm →
      cartItemsValid cart.items = true →
      1 ≤ itm.quantity + d →
      ∃ saved, addToCart db userId bookId d freshItemId =
          (HResult.success 200 saved, upsertCart db saved) ∧
        saved.items.length = cart.items.length ∧
        saved.items[i]? = some { itm with quantity := itm.quantity + d } ∧
        (∀ j, j ≠ i → saved.items[j]? = cart.items[j]?)) ∧
    (∀ book cart,
      findBookById db bookId = some book →
      findCartByUser db userId = some cart →
      cart.items.findIdx? (fun item => item.book == bookId) = none →
      cartItemsValid cart.items = true →
      1 ≤ d →
      ∃ saved, addToCart db userId bookId d freshItemId =
          (HResult.success 200 saved, upsertCart db saved) ∧
        saved.items = cart.items ++
          [{ itemId := freshItemId, book := bookId, quantity := d, price := book.price }]) := by
  constructor
  · intro book cart i itm hBook hCart hIdx hItm hValid hQ
    obtain ⟨saved, heq, -, hlen, hget, hfr, -⟩ :=
      addToCart_merge_spec db userId bookId freshItemId d book cart i itm
        hBook hCart hIdx hItm hValid hQ
    exact ⟨saved, heq, hlen, hget, hfr⟩
  · intro book cart hBook hCart hIdx hValid hQ
    obtain ⟨saved, heq, -, hitems, -⟩ :=
      addToCart_append_spec db userId bookId freshItemId d book cart
        hBook hCart hIdx hValid hQ
    exact ⟨saved, heq, hitems⟩

/-- Witness for C4: the cart item was snapshotted at price 7, the
catalog book now costs 9; adding quantity 3 merges to quantity 5 and
keeps unit price 7. -/
theorem claim_C4_merge_and_snapshot_witness :
    ∃ saved, addToCart exDb4 1 10 3 99 = (HResult.success 200 saved, upsertCart exDb4 saved) ∧
      saved.items.length = exCart4.items.length ∧
      saved.items[0]? = some { exItem4 with quantity := exItem4.quantity + 3 } ∧
      (∀ j, j ≠ 0 → saved.items[j]? = exCart4.items[j]?) :=
  (claim_C4_merge_and_snapshot exDb4 1 10 99 3).1 exBook4 exCart4 0 exItem4
    (by decide) (by decide) (by decide) (by decide) (by decide) (by decide)

/-- C6: the status update rejects every status outside pending,
processing, shipped, delivered with HTTP 400 and no mutation, returns
404 when the order does not exist, and otherwise sets the status and
persists it with no transition guard on the current status. -/
theorem claim_C6_status_update (db : Db) (orderId : Nat) (newStatus : String) :
    (assignableStatuses.contains newStatus = false →
      updateOrderStatus db orderId newStatus = (HResult.failure 400 "Invalid status", db)) ∧
    (assignableStatuses.contains newStatus = true →
      findOrderById db orderId = none →
      updateOrderStatus db orderId newStatus = (HResult.failure 404 "Order not found", db)) ∧
    (∀ o, assignableStatuses.contains newStatus = true →
      findOrderById db orderId = some o →
      orderWellFormed o = true →
      (updateOrderStatus db orderId newStatus).1 =
        HResult.success 200 { o with status := newStatus } ∧
      findOrderById (updateOrderStatus db orderId newStatus).2 orderId =
        some { o with status := newStatus }) := by
  refine ⟨fun h => updateOrderStatus_invalid db orderId newStatus h,
    fun h hO => updateOrderStatus_missing db orderId newStatus h hO, ?_⟩
  intro o h hO hWF
  rw [updateOrderStatus_success_spec db orderId newStatus o h hO hWF]
  refine ⟨rfl, ?_⟩
  exact findOrderById_after_update db orderId o _ hO (by simpa using findOrderById_id hO)

/-- Witness for C6: cancelled and archived are both rejected without
mutation, while shipped is settable directly from pending. -/
theorem claim_C6_status_update_witness :
    updateOrderStatus exDb6 7 "cancelled" = (HResult.failure 400 "Invalid status", exDb6) ∧
    updateOrderStatus exDb6 7 "archived" = (HResult.failure 400 "Invalid status", exDb6) ∧
    (updateOrderStatus exDb6 7 "shipped").1 =
      HResult.success 200 { exOrder6 with status := "shipped" } :=
  ⟨(claim_C6_status_update exDb6 7 "cancelled").1 (by decide),
   (claim_C6_status_update exDb6 7 "archived").1 (by decide),
   ((claim_C6_status_update exDb6 7 "shipped").2.2 exOrder6
     (by decide) (by decide) (by decide)).1⟩

/-- C7: updating a line item quantity fails with 400 for a requested
quantity below one, 404 when the user has no cart or the line item id
is absent, each with no write; otherwise it sets exactly that line
item's quantity, recomputes the total and persists the cart. -/
theorem claim_C7_update_quantity (db : Db) (userId itemId : Nat) (q : Int) :
    (q < 1 →
      updateCartItem db userId itemId q = (HResult.failure 400 "Quantity must be at least 1", db)) ∧
    (1 ≤ q → findCartByUser db userId = none →
      updateCartItem db userId itemId q = (HResult.failure 404 "Cart not found", db)) ∧
    (∀ cart, 1 ≤ q → findCartByUser db userId = some cart →
      cart.items.findIdx? (fun item => item.itemId == itemId) = none →
      updateCartItem db userId itemId q = (HResult.failure 404 "Item not found in cart", db)) ∧
    (∀ cart i itm, 1 ≤ q → findCartByUser db userId = some cart →
      cart.items.findIdx? (fun item => item.itemId == itemId) = some i →
      cart.items[i]? = some itm →
      cartItemsValid cart.items = true →
      ∃ saved, updateCartItem db userId itemId q =
          (HResult.success 200 saved, upsertCart db saved) ∧
        saved.items.length = cart.items.length ∧
        saved.items[i]? = some { itm with quantity := q } ∧
        (∀ j, j ≠ i → saved.items[j]? = cart.items[j]?) ∧
        saved.totalAmount = cartTotal saved.items ∧
        findCartByUser (upsertCart db saved) userId = some saved) := by
  have hne : ∀ h2 : 1 ≤ q, (q == 0 || q < 1) = false := by
    intro h2
    have h0 : q ≠ 0 := ne_of_gt (lt_of_lt_of_le one_pos h2)
    have h1 : ¬ q < 1 := not_lt.2 h2
    simp [h0, h1]
  refine ⟨?_, ?_, ?_, ?_⟩
  · intro hq
    have hd : (decide (q < 1)) = true := decide_eq_true hq
    unfold updateCartItem
    rw [hd, Bool.or_true]
    rfl
  · intro hq hC
    unfold updateCartItem
    rw [hne hq, hC]
    rfl
  · intro cart hq hC hIdx
    unfold updateCartItem
    rw [hne hq, hC]
    simp only []
    rw [hIdx]
    rfl
  · intro cart i itm hq hC hIdx hItm hValid
    obtain ⟨saved, heq, hu, hlen, hget, hfr, htot⟩ :=
      updateCartItem_success_spec db userId itemId q cart i itm hq hC hIdx hItm hValid
    refine ⟨saved, heq, hlen, hget, hfr, htot, ?_⟩
    have h1 := findCartByUser_upsertCart db saved
    rw [hu, findCartByUser_user hC] at h1
    exact h1

/-- Witness for C7: setting the single line item of the concrete cart
to quantity 4 succeeds, rewrites only that item and recomputes the
persisted total. -/
theorem claim_C7_update_quantity_witness :
    ∃ saved, updateCartItem exDb4 1 5 4 = (HResult.success 200 saved, upsertCart exDb4 saved) ∧
      saved.items.length = exCart4.items.length ∧
      saved.items[0]? = some { exItem4 with quantity := 4 } ∧
      (∀ j, j ≠ 0 → saved.items[j]? = exCart4.items[j]?) ∧
      saved.totalAmount = cartTotal saved.items ∧
      findCartByUser (upsertCart exDb4 saved) 1 = some saved :=
  (claim_C7_update_quantity exDb4 1 5 4).2.2.2 exCart4 0 exItem4
    (by decide) (by decide) (by decide) (by decide) (by decide)

/-- C8: removing an item fails with 404 only when the user has no cart;
with an existing cart, an absent item id still succeeds with the item
list and total unchanged, and a present id removes exactly that item
and recomputes the total. -/
theorem claim_C8_remove_item (db : Db) (userId itemId : Nat) :
    (findCartByUser db userId = none →
      removeFromCart db userId itemId = (HResult.failure 404 "Cart not found", db)) ∧
    (∀ cart, findCartByUser db userId = some cart →
      cartItemsValid cart.items = true →
      cart.totalAmount = cartTotal cart.items →
      (∀ item ∈ cart.items, ¬ item.itemId = itemId) →
      ∃ saved, removeFromCart db userId itemId =
          (HResult.success 200 saved, upsertCart db saved) ∧
        saved.items = cart.items ∧ saved.totalAmount = cart.totalAmount) ∧
    (∀ cart pre itm post, findCartByUser db userId = some cart →
      cartItemsValid cart.items = true →
      cart.items = pre ++ itm :: post →
      itm.itemId = itemId →
      (∀ x ∈ pre, ¬ x.itemId = itemId) →
      (∀ x ∈ post, ¬ x.itemId = itemId) →
      ∃ saved, removeFromCart db userId itemId =
          (HResult.success 200 saved, upsertCart db saved) ∧
        saved.items = pre ++ post ∧
        saved.totalAmount = cartTotal (pre ++ post)) := by
  refine ⟨?_, ?_, ?_⟩
  · intro hC
    unfold removeFromCart
    rw [hC]
  · intro cart hC hValid hInv hAbs
    obtain ⟨saved, heq, -, hitems, htot⟩ :=
      removeFromCart_success_spec db userId itemId cart hC hValid
    have hfe : cart.items.filter (fun item => !(item.itemId == itemId)) = cart.items := by
      refine List.filter_eq_self.2 ?_
      intro a ha
      simpa using hAbs a ha
    refine ⟨saved, heq, ?_, ?_⟩
    · rw [hitems, hfe]
    · rw [htot, hitems, hfe]
      exact hInv.symm
  · intro cart pre itm post hC hValid hsplit hitmEq hpre hpost
    obtain ⟨saved, heq, -, hitems, htot⟩ :=
      removeFromCart_success_spec db userId itemId cart hC hValid
    have hfe : cart.items.filter (fun item => !(item.itemId == itemId)) = pre ++ post := by
      rw [hsplit, List.filter_append, List.filter_cons]
      have h1 : (!(itm.itemId == itemId)) = false := by simp [hitmEq]
      rw [h1]
      simp only [Bool.false_eq_true, if_false]
      rw [List.filter_eq_self.2 (fun a ha => by simpa using hpre a ha),
        List.filter_eq_self.2 (fun a ha => by simpa using hpost a ha)]
    refine ⟨saved, heq, ?_, ?_⟩
    · rw [hitems, hfe]
    · rw [htot, hitems, hfe]

/-- Witness for C8: removing the absent item id 777 from the concrete
one-item cart succeeds and leaves items and total unchanged. -/
theorem claim_C8_remove_item_witness :
    ∃ saved, removeFromCart exDb4 1 777 = (HResult.success 200 saved, upsertCart exDb4 saved) ∧
      saved.items = exCart4.items ∧ saved.totalAmount = exCart4.totalAmount :=
  (claim_C8_remove_item exDb4 1 777).2.1 exCart4
    (by decide) (by decide) (by decide) (by decide)

/-- C9: the add endpoint performs no validation of the requested
quantity: for a cart already holding a line item for the book, adding
any integer quantity d, including zero or a negative value, sets that
item's stored quantity to its old quantity plus d, and the operation
succeeds whenever that result is at least one. -/
theorem claim_C9_add_unvalidated_quantity (db : Db) (userId bookId freshItemId : Nat) (d : Int) :
    ∀ book cart i itm,
      findBookById db bookId = some book →
      findCartByUser db userId = some cart →
      cart.items.findIdx? (fun item => item.book == bookId) = some i →
      cart.items[i]? = some itm →
      cartItemsValid cart.items = true →
      1 ≤ itm.quantity + d →
      ∃ saved, addToCart db userId bookId d freshItemId =
          (HResult.success 200 saved, upsertCart db saved) ∧
        saved.items[i]? = some { itm with quantity := itm.quantity + d } := by
  intro book cart i itm hBook hCart hIdx hItm hValid hQ
  obtain ⟨saved, heq, -, -, hget, -, -⟩ :=
    addToCart_merge_spec db userId bookId freshItemId d book cart i itm
      hBook hCart hIdx hItm hValid hQ
  exact ⟨saved, heq, hget⟩

/-- Witness for C9: adding quantity minus one through the add endpoint
silently decrements the stored quantity from 2 to 1. -/
theorem claim_C9_add_unvalidated_quantity_witness :
    ∃ saved, addToCart exDb4 1 10 (-1) 99 = (HResult.success 200 saved, upsertCart exDb4 saved) ∧
      saved.items[0]? = some { exItem4 with quantity := exItem4.quantity + (-1) } :=
  claim_C9_add_unvalidated_quantity exDb4 1 10 99 (-1) exBook4 exCart4 0 exItem4
    (by decide) (by decide) (by decide) (by decide) (by decide) (by decide)

/-- C10: the order lookup is ownership-scoped: an existing order owned
by a different user yields 404 rather than the order or a 403, and an
order is returned only when it exists and is owned by the requester. -/
theorem claim_C10_order_lookup_scoped (db : Db) (userId orderId : Nat) :
    (∀ o, findOrderById db orderId = some o → ¬ o.user = userId →
      (∀ o2 ∈ db.orders, o2.id = orderId → o2 = o) →
      getOrderById db userId orderId = (HResult.failure 404 "Order not found", db)) ∧
    (∀ o db2, getOrderById db userId orderId = (HResult.success 200 o, db2) →
      o ∈ db.orders ∧ o.id = orderId ∧ o.user = userId) := by
  constructor
  · intro o hO hNe hUniq
    have hnone : db.orders.find? (fun o0 => o0.id == orderId && o0.user == userId) = none := by
      refine List.find?_eq_none.2 ?_
      intro x hx hpx
      have h1 : x.id = orderId ∧ x.user = userId := by simpa using hpx
      have h2 : x = o := hUniq x hx h1.1
      exact hNe (h2 ▸ h1.2)
    unfold getOrderById
    rw [hnone]
  · intro o db2 h
    unfold getOrderById at h
    split at h
    · simp at h
    next o2 hfind =>
      simp only [Prod.mk.injEq, HResult.success.injEq] at h
      obtain ⟨⟨-, rfl⟩, -⟩ := h
      have hp := List.find?_some hfind
      simp only [Bool.and_eq_true, beq_iff_eq] at hp
      exact ⟨List.mem_of_find?_eq_some hfind, hp.1, hp.2⟩

/-- Witness for C10: user 1 looking up order 8, which belongs to user
2, receives 404 with the store untouched. -/
theorem claim_C10_order_lookup_scoped_witness :
    getOrderById exDb10 1 8 = (HResult.failure 404 "Order not found", exDb10) :=
  (claim_C10_order_lookup_scoped exDb10 1 8).1 exOrder10
    (by decide) (by decide) (by decide)

end ReadAPI
